import Mathlib

/-!
Verification of the Topic Selection & Grounded-Summarization Pipeline of
`create_report.py` (the daily macro morning brief generator).

The embedding below translates the decision logic of the source file:
  * `_date_from_url` (lines 24-28): the URL date regex;
  * `_summarize_points` (lines 36-81): the grounded Extractor with its
    validity gate and sentinel fallback;
  * `main` (lines 105-202): per-topic bundling, topic-score ranking,
    the Deep/Short/stale decision tree for selected bundles, and the
    overflow appendix collection.

Modelling conventions:
  * Relevance scores are numbers compared only for order; they are
    modelled as `Int`.
  * `Article.published_at` models the date portion of the optional
    timestamp, i.e. the value of `a.published_at.date().isoformat()`
    when the timestamp is present, since only that projection is used.
  * URLs are modelled as strings of ASCII characters (`Char.isDigit`
    stands for the regex class `\d`).
  * The external model call of `_summarize_points` is abstracted by its
    outcome: either a raised transport/protocol exception, or a response
    body that parses to the expected four-field shape, or a body whose
    parsing raises (the `except` path).
-/

/-- An article as produced by the Article source (`news_fetch.Article`):
title, url, source label, optional published date, body text and a
relevance score. -/
structure Article where
  title : String
  url : String
  source : String
  published_at : Option String
  text : String
  score : Int
deriving DecidableEq

/-- The structured Extractor output: the four keys `what, so_what, who,
watch` requested from the model (`_summarize_points`).  A missing or
falsy field of the parsed JSON object is modelled as the empty string. -/
structure Summary where
  what : String
  so_what : String
  who : String
  watch : String
deriving DecidableEq

/-- A link-only appendix entry (the dict literal appended to
`appendix_items` in `main`). -/
structure AppendixItem where
  title : String
  url : String
  date : Option String
  label : String
deriving DecidableEq

/-- Per-topic fetch result: the `{"recent": [...], "stale": [...]}`
buckets returned by `fetch_topic`. -/
structure Buckets where
  recent : List Article
  stale : List Article
deriving DecidableEq

/-- The per-topic bundle built in the first loop of `main`
(lines 119-124). -/
structure Bundle where
  topic : String
  recent_sorted : List Article
  stale : List Article
  topic_score : Int
deriving DecidableEq

/-- Modelled from the spec: `report_renderer.render_topic_section` is an
external collaborator absent from the sources; per the data model a
Section is a block carrying the header, the titles used as evidence and
the Summary.  We record the evidence articles themselves; the renderer
receives their titles `evidence.map Article.title` (the source passes
`[a.title for a in top_articles]`). -/
structure ReportSection where
  header : String
  evidence : List Article
  summary : Summary
deriving DecidableEq

/-- The two accumulator sequences of `main`: the narrative sections and
the appendix entries handed to the renderer. -/
structure RunOutput where
  sections : List ReportSection
  appendix : List AppendixItem
deriving DecidableEq

/-- One position of the search of `_date_from_url`: does the source's
regex — slash, the literal `20` and two digits, a dash-or-slash
separator, two digits, a separator, two digits, slash — match starting
at this character?  On success the three groups joined by `-` are
returned. -/
def dateMatchAt : List Char → Option String
  | '/' :: '2' :: '0' :: y3 :: y4 :: s1 :: m1 :: m2 :: s2 :: d1 :: d2 :: '/' :: _ =>
    if y3.isDigit && y4.isDigit && (s1 == '-' || s1 == '/') && m1.isDigit && m2.isDigit
        && (s2 == '-' || s2 == '/') && d1.isDigit && d2.isDigit then
      some (String.mk ['2', '0', y3, y4, '-', m1, m2, '-', d1, d2])
    else
      none
  | _ => none

/-- Leftmost-match scan of `re.search`. -/
def dateSearch : List Char → Option String
  | [] => none
  | c :: rest =>
    match dateMatchAt (c :: rest) with
    | some s => some s
    | none => dateSearch rest

/-- Embedding of `_date_from_url` (source lines 24-28). -/
def dateFromUrl (url : String) : Option String :=
  dateSearch url.toList

/-- Comparison definition for C9, following the claim's words rather
than the source: a slash-delimited `YYYY MM DD` segment (fields split by
dash or slash) with `YYYY` read literally as any four-digit year; the
source instead requires the year to start with `20`. -/
def dateMatchClaimAt : List Char → Option String
  | '/' :: y1 :: y2 :: y3 :: y4 :: s1 :: m1 :: m2 :: s2 :: d1 :: d2 :: '/' :: _ =>
    if y1.isDigit && y2.isDigit && y3.isDigit && y4.isDigit
        && (s1 == '-' || s1 == '/') && m1.isDigit && m2.isDigit
        && (s2 == '-' || s2 == '/') && d1.isDigit && d2.isDigit then
      some (String.mk [y1, y2, y3, y4, '-', m1, m2, '-', d1, d2])
    else
      none
  | _ => none

/-- Leftmost-match scan for the claim-literal pattern of C9. -/
def dateSearchClaim : List Char → Option String
  | [] => none
  | c :: rest =>
    match dateMatchClaimAt (c :: rest) with
    | some s => some s
    | none => dateSearchClaim rest

/-- The date-from-URL derivation as the C9 claim words it. -/
def dateFromUrlClaim (url : String) : Option String :=
  dateSearchClaim url.toList

/-- The fixed fallback Summary of `_summarize_points`: all four fields
equal to `"Insufficient facts"`. -/
def sentinelSummary : Summary :=
  { what := "Insufficient facts", so_what := "Insufficient facts",
    who := "Insufficient facts", watch := "Insufficient facts" }

/-- The count `sum(1 for k in ("what", "so_what", "who", "watch") if not
data.get(k))` over the well-typed data model: a field is falsy exactly
when it is empty/missing. -/
def emptyFieldCount (d : Summary) : Nat :=
  (if d.what = "" then 1 else 0) + (if d.so_what = "" then 1 else 0) +
    (if d.who = "" then 1 else 0) + (if d.watch = "" then 1 else 0)

/-- The validity gate `bad = not data or sum(...) >= 3` of
`_summarize_points` (line 66).  A falsy response object has every `get`
falsy, so over the four-field data model the `not data` disjunct is
subsumed by the field count. -/
def summaryBad (d : Summary) : Bool :=
  decide (3 ≤ emptyFieldCount d)

/-- A failure raised by `client.chat.completions.create` itself
(network/transport or protocol error). -/
inductive CallError
  | transport
  | protocol
deriving DecidableEq

/-- Embedding of `_summarize_points` (source lines 36-81), abstracted
over the outcome of the external call.  `Except.error e` is an exception
raised by `client.chat.completions.create` at line 57: that statement
stands OUTSIDE the `try` block, so the exception propagates to the
caller.  `Except.ok none` is a response whose body fails to parse as the
expected shape inside the `try` (the `except` branch, lines 75-81).
`Except.ok (some data)` is a parsed response, which then runs the
validity gate (lines 66-74). -/
def summarizePoints (callResult : Except CallError (Option Summary)) : Except CallError Summary :=
  match callResult with
  | .error e => .error e
  | .ok none => .ok sentinelSummary
  | .ok (some data) => .ok (if summaryBad data then sentinelSummary else data)

/-- Does `needle` occur as a prefix of `hay`? -/
def charsStartWith : List Char → List Char → Bool
  | [], _ => true
  | _ :: _, [] => false
  | a :: as, b :: bs => a == b && charsStartWith as bs

/-- Does `needle` occur as a contiguous substring of `hay`?  This is the
Python `in` operator on strings. -/
def charsContain (needle : List Char) : List Char → Bool
  | [] => needle.isEmpty
  | c :: rest => charsStartWith needle (c :: rest) || charsContain needle rest

/-- String containment, Python `needle in hay`. -/
def strContainsSub (hay needle : String) : Bool :=
  charsContain needle.toList hay.toList

/-- The concatenation `"".join(summary.values())` with the four fields
in their insertion order `what, so_what, who, watch`. -/
def joinedValues (s : Summary) : String :=
  s.what ++ s.so_what ++ s.who ++ s.watch

/-- The Section Composer's insufficiency test: the source decides the
Deep/Short emission by `"Insufficient" not in "".join(summary.values())`
(lines 142 and 163); this is the positive (appendix-path) condition. -/
def insufficientIn (s : Summary) : Bool :=
  strContainsSub (joinedValues s) "Insufficient"

/-- The date used for an appendix entry:
`a.published_at.date().isoformat() if a.published_at else
_date_from_url(a.url)`. -/
def articleDate (a : Article) : Option String :=
  match a.published_at with
  | some d => some d
  | none => dateFromUrl a.url

/-- The appendix dict literal repeated verbatim at the four append sites
of `main` (lines 153-158, 173-179, 182-188, 196-202). -/
def mkAppendixItem (a : Article) : AppendixItem :=
  { title := a.title, url := a.url, date := articleDate a, label := a.source }

/-- Generic per-topic fetch failure. -/
inductive FetchError
  | failure
deriving DecidableEq

/-- Modelled from the spec: `news_fetch.fetch_topic` is a repository
module absent from the sources; per the error-handling design a
FetchFailure for a topic is treated as empty recent/stale buckets for
that topic and does not abort the run. -/
def effectiveBuckets : Except FetchError Buckets → Buckets
  | .error _ => { recent := [], stale := [] }
  | .ok b => b

/-- Stable descending insertion by an integer key: the new element goes
before every element of smaller-or-equal key it precedes in the input
order.  (`insertDescBy` inserts an element that occurred EARLIER in the
input into the sorted tail, so it must land before key-equal
elements.) -/
def insertDescBy {α : Type} (k : α → Int) (a : α) : List α → List α
  | [] => [a]
  | b :: t => if k b ≤ k a then a :: b :: t else b :: insertDescBy k a t

/-- Stable descending sort by an integer key: the embedding of Python's
stable `sorted(..., key=..., reverse=True)` / `list.sort(key=...,
reverse=True)` (source lines 116 and 127): the result is ordered by
non-increasing key and key-equal elements keep their input order. -/
def sortDescBy {α : Type} (k : α → Int) : List α → List α
  | [] => []
  | a :: t => insertDescBy k a (sortDescBy k t)

/-- The Topic Bundler: body of the first loop of `main` (lines 116-124):
sort the recent bucket by descending score and derive the topic score
from the head (`recent_sorted[0].score` if non-empty else `0`). -/
def mkBundle (topic : String) (bk : Buckets) : Bundle :=
  let rs := sortDescBy (fun a => a.score) bk.recent
  { topic := topic, recent_sorted := rs, stale := bk.stale,
    topic_score := match rs with | [] => 0 | a :: _ => a.score }

/-- The first loop of `main`: one bundle per configured topic, in
configuration order, from the (failure-absorbed) fetch results. -/
def buildBundles (inp : List (String × Except FetchError Buckets)) : List Bundle :=
  inp.map (fun p => mkBundle p.1 (effectiveBuckets p.2))

/-- Source constant `MAX_TOP_SECTIONS = 10`. -/
def MAX_TOP_SECTIONS : Nat := 10

/-- Source constant `APPEND_STALE = True`. -/
def APPEND_STALE : Bool := true

/-- The Topic Selector (lines 127-128 and 191): stable-sort the bundles
by descending `topic_score` and split at `K` into the selected head and
the overflow tail. -/
def selectBundles (K : Nat) (bundles : List Bundle) : List Bundle × List Bundle :=
  let s := sortDescBy (fun b => b.topic_score) bundles
  (s.take K, s.drop K)

/-- The Section Composer: body of the selected-bundle loop of `main`
(lines 133-188), producing the sections and appendix entries this bundle
contributes.  `oracle` gives the Summary returned by
`_summarize_points` for a given topic and evidence list (an extraction
call that raises instead is claim C1's concern and aborts the run).
The source emits the section when `"Insufficient" not in
"".join(summary.values())` and falls back to the appendix otherwise;
the branches below are that conditional with the two arms swapped. -/
def composeSelected (oracle : String → List Article → Summary) (b : Bundle) :
    List ReportSection × List AppendixItem :=
  if 2 ≤ b.recent_sorted.length then
    let top_articles := b.recent_sorted.take 2
    let summary := oracle b.topic top_articles
    if insufficientIn summary then
      ([], top_articles.map mkAppendixItem)
    else
      ([{ header := b.topic ++ " (Deep)", evidence := top_articles, summary := summary }], [])
  else if b.recent_sorted.length = 1 then
    let one := b.recent_sorted.take 1
    let summary := oracle b.topic one
    if insufficientIn summary then
      ([], one.map mkAppendixItem)
    else
      ([{ header := b.topic ++ " (Short)", evidence := one, summary := summary }], [])
  else
    ([], if APPEND_STALE then (b.stale.take 3).map mkAppendixItem else [])

/-- The overflow loop of `main` (lines 191-202): up to 2 recent and,
with stale fallback, up to 2 stale articles become appendix entries. -/
def collectOverflow (b : Bundle) : List AppendixItem :=
  let extras := b.recent_sorted.take 2 ++ (if APPEND_STALE then b.stale.take 2 else [])
  extras.map mkAppendixItem

/-- The whole core pipeline of `main` (lines 100-202): bundle every
topic, rank and split, run the Section Composer over the selected
bundles in rank order and the overflow collector over the tail.  The two
output lists accumulate in loop order, exactly as the `sections` and
`appendix_items` lists of the source. -/
def runPipeline (oracle : String → List Article → Summary)
    (inp : List (String × Except FetchError Buckets)) : RunOutput :=
  let bundles := buildBundles inp
  let sel := selectBundles MAX_TOP_SECTIONS bundles
  { sections := (sel.1.map (fun b => (composeSelected oracle b).1)).flatten,
    appendix := (sel.1.map (fun b => (composeSelected oracle b).2)).flatten
      ++ (sel.2.map collectOverflow).flatten }

/-- All articles of a bundle, recent then stale. -/
def artsOf (b : Bundle) : List Article :=
  b.recent_sorted ++ b.stale

/-- All articles delivered by the (failure-absorbed) fetches of a run,
in topic order. -/
def allFetchedArticles (inp : List (String × Except FetchError Buckets)) : List Article :=
  (inp.map (fun p => (effectiveBuckets p.2).recent ++ (effectiveBuckets p.2).stale)).flatten

/-- The articles a selected bundle contributes as Section evidence:
projection of the section component of `composeSelected`. -/
def sectionEvidenceSelected (oracle : String → List Article → Summary) (b : Bundle) :
    List Article :=
  if 2 ≤ b.recent_sorted.length then
    if insufficientIn (oracle b.topic (b.recent_sorted.take 2)) then []
    else b.recent_sorted.take 2
  else if b.recent_sorted.length = 1 then
    if insufficientIn (oracle b.topic (b.recent_sorted.take 1)) then []
    else b.recent_sorted.take 1
  else []

/-- The articles a selected bundle routes to the appendix: projection of
the appendix component of `composeSelected`. -/
def appendixSourcesSelected (oracle : String → List Article → Summary) (b : Bundle) :
    List Article :=
  if 2 ≤ b.recent_sorted.length then
    if insufficientIn (oracle b.topic (b.recent_sorted.take 2)) then b.recent_sorted.take 2
    else []
  else if b.recent_sorted.length = 1 then
    if insufficientIn (oracle b.topic (b.recent_sorted.take 1)) then b.recent_sorted.take 1
    else []
  else if APPEND_STALE then b.stale.take 3 else []

/-- The articles an overflow bundle routes to the appendix. -/
def appendixSourcesOverflow (b : Bundle) : List Article :=
  b.recent_sorted.take 2 ++ (if APPEND_STALE then b.stale.take 2 else [])

/-- All articles used as evidence by the emitted sections of a run. -/
def evidenceArticles (out : RunOutput) : List Article :=
  (out.sections.map (fun s => s.evidence)).flatten

/-- All articles a run turns into appendix entries, in append order. -/
def runAppendixSources (oracle : String → List Article → Summary)
    (inp : List (String × Except FetchError Buckets)) : List Article :=
  let sel := selectBundles MAX_TOP_SECTIONS (buildBundles inp)
  (sel.1.map (appendixSourcesSelected oracle)).flatten
    ++ (sel.2.map appendixSourcesOverflow).flatten

/-! ### Concrete example data used by counterexamples and witnesses -/

/-- A high-scoring recent article. -/
def artTop : Article :=
  { title := "Fed cuts rates", url := "https://news.example/fed1", source := "WireA",
    published_at := some "2025-09-18", text := "The Fed cut 25bp.", score := 9 }

/-- A second recent article with a lower score. -/
def artSecond : Article :=
  { title := "Markets react", url := "https://news.example/fed2", source := "WireB",
    published_at := none, text := "Stocks rallied.", score := 3 }

/-- A third recent article, ranked below the top two. -/
def artThird : Article :=
  { title := "Background", url := "https://news.example/fed3", source := "WireC",
    published_at := none, text := "Context piece.", score := 1 }

/-- Two articles sharing the same score but nothing else. -/
def artA : Article :=
  { title := "A", url := "https://example.com/a", source := "srcA",
    published_at := none, text := "", score := 5 }

/-- See `artA`. -/
def artB : Article :=
  { title := "B", url := "https://example.com/b", source := "srcB",
    published_at := none, text := "", score := 5 }

/-- A stale article whose URL carries a pre-2000 date segment and whose
published timestamp is absent. -/
def artOld : Article :=
  { title := "Old story", url := "https://ex.com/1999-05-06/old", source := "wire",
    published_at := none, text := "", score := 1 }

/-- A bundle for a topic with exactly two recent articles. -/
def bundleFed : Bundle :=
  mkBundle "Fed Rate" { recent := [artTop, artSecond], stale := [] }

/-- An extraction result that is far from the sentinel but mentions the
word `Insufficient` in one field. -/
def oracleInsufficientWord : String → List Article → Summary :=
  fun _ _ =>
    { what := "Insufficient evidence in one item", so_what := "Watch the next meeting",
      who := "Fed", watch := "CPI print" }

/-- A fully grounded extraction result. -/
def oracleFacts : String → List Article → Summary :=
  fun _ _ =>
    { what := "Cut 25bp to 5.25-5.50 on 2025-09-18", so_what := "Easing begins",
      who := "FOMC", watch := "Next dot plot" }

/-- An extraction result equal to the sentinel. -/
def oracleNone : String → List Article → Summary :=
  fun _ _ => sentinelSummary

/-- A parsed Extractor response with exactly two empty fields. -/
def summaryTwoEmpty : Summary :=
  { what := "Fed cut 25bp", so_what := "Rates lower", who := "", watch := "" }

/-- A run with a single topic carrying two recent articles. -/
def inpPair : List (String × Except FetchError Buckets) :=
  [("Fed Rate", Except.ok { recent := [artTop, artSecond], stale := [] })]

/-- A run with a single topic carrying three recent articles. -/
def inpTriple : List (String × Except FetchError Buckets) :=
  [("Fed Rate", Except.ok { recent := [artTop, artSecond, artThird], stale := [] })]

/-- A run with a single topic with no recent articles and one stale
article (see `artOld`). -/
def inpOld : List (String × Except FetchError Buckets) :=
  [("Rare Topic", Except.ok { recent := [], stale := [artOld] })]

/-- A run whose single topic fails to fetch. -/
def inpFail : List (String × Except FetchError Buckets) :=
  [("Oil Prices", Except.error FetchError.failure)]

/-! ### Properties of the stable descending sort -/

/-- Inserting permutes: the result holds the new element and the old ones. -/
theorem insertDescBy_perm {α : Type} (k : α → Int) (a : α) (l : List α) :
    (insertDescBy k a l).Perm (a :: l) := by
  induction l with
  | nil => exact List.Perm.refl _
  | cons b t ih =>
    simp only [insertDescBy]
    split
    · exact List.Perm.refl _
    · exact (ih.cons b).trans (List.Perm.swap a b t)

/-- The stable sort permutes its input. -/
theorem sortDescBy_perm {α : Type} (k : α → Int) (l : List α) :
    (sortDescBy k l).Perm l := by
  induction l with
  | nil => exact List.Perm.refl _
  | cons a t ih =>
    exact (insertDescBy_perm k a (sortDescBy k t)).trans (ih.cons a)

/-- Inserting into a non-increasing list keeps it non-increasing. -/
theorem insertDescBy_pairwise {α : Type} (k : α → Int) (a : α) (l : List α)
    (h : l.Pairwise (fun x y => k y ≤ k x)) :
    (insertDescBy k a l).Pairwise (fun x y => k y ≤ k x) := by
  induction l with
  | nil => simp [insertDescBy]
  | cons b t ih =>
    rcases List.pairwise_cons.mp h with ⟨hb, ht⟩
    simp only [insertDescBy]
    split
    · rename_i hba
      refine List.pairwise_cons.mpr ⟨?_, h⟩
      intro x hx
      rcases List.mem_cons.mp hx with rfl | hx
      · exact hba
      · exact le_trans (hb x hx) hba
    · rename_i hba
      push_neg at hba
      refine List.pairwise_cons.mpr ⟨?_, ih ht⟩
      intro x hx
      rcases List.mem_cons.mp ((insertDescBy_perm k a t).mem_iff.mp hx) with rfl | hx2
      · exact le_of_lt hba
      · exact hb x hx2

/-- The sorted list is non-increasing in the key. -/
theorem sortDescBy_pairwise {α : Type} (k : α → Int) (l : List α) :
    (sortDescBy k l).Pairwise (fun x y => k y ≤ k x) := by
  induction l with
  | nil => simp [sortDescBy]
  | cons a t ih => exact insertDescBy_pairwise k a (sortDescBy k t) ih

/-- Stability, one step: filtering any key value commutes with insertion. -/
theorem insertDescBy_filter {α : Type} (k : α → Int) (v : Int) (a : α) (l : List α) :
    (insertDescBy k a l).filter (fun x => k x == v)
      = (a :: l).filter (fun x => k x == v) := by
  induction l with
  | nil => rfl
  | cons b t ih =>
    simp only [insertDescBy]
    split
    · rfl
    · rename_i hba
      push_neg at hba
      by_cases hav : k a = v
      · have hbv : ¬ k b = v := by omega
        simp only [List.filter_cons, ih, beq_iff_eq, hav, hbv, if_true, if_false,
          decide_eq_true_eq]
      · simp only [List.filter_cons, ih, beq_iff_eq]
        simp [hav]

/-- Stability of the sort: the elements of any single key value appear in
the output in their input order. -/
theorem sortDescBy_filter {α : Type} (k : α → Int) (v : Int) (l : List α) :
    (sortDescBy k l).filter (fun x => k x == v) = l.filter (fun x => k x == v) := by
  induction l with
  | nil => rfl
  | cons a t ih =>
    simp only [sortDescBy, insertDescBy_filter, List.filter_cons, ih]

/-- With pairwise-distinct keys the sorted result is the same for every
permutation of the input. -/
theorem sortDescBy_eq_of_perm {α : Type} (k : α → Int) {l1 l2 : List α}
    (hp : l1.Perm l2) (hne : l1.Pairwise (fun x y => k x ≠ k y)) :
    sortDescBy k l1 = sortDescBy k l2 := by
  have p1 := sortDescBy_perm k l1
  have p2 := sortDescBy_perm k l2
  have hperm : (sortDescBy k l1).Perm (sortDescBy k l2) := p1.trans (hp.trans p2.symm)
  have hsym : ∀ {x y : α}, k x ≠ k y → k y ≠ k x := fun h e => h e.symm
  have hne1 : (sortDescBy k l1).Pairwise (fun x y => k x ≠ k y) :=
    (p1.pairwise_iff fun h e => h e.symm).mpr hne
  have hne2 : (sortDescBy k l2).Pairwise (fun x y => k x ≠ k y) :=
    (p2.pairwise_iff fun h e => h e.symm).mpr ((hp.pairwise_iff fun h e => h e.symm).mp hne)
  have hs1 : (sortDescBy k l1).Pairwise (fun x y => k y < k x) :=
    ((sortDescBy_pairwise k l1).and hne1).imp (fun h => lt_of_le_of_ne h.1 (hsym h.2))
  have hs2 : (sortDescBy k l2).Pairwise (fun x y => k y < k x) :=
    ((sortDescBy_pairwise k l2).and hne2).imp (fun h => lt_of_le_of_ne h.1 (hsym h.2))
  haveI : IsAntisymm α (fun x y => k y < k x) :=
    ⟨fun a b h1 h2 => absurd h2 (not_lt.mpr (le_of_lt h1))⟩
  exact List.eq_of_perm_of_sorted hperm hs1 hs2

/-! ### Glue between the composer and its article-level projections -/

/-- The appendix entries a selected bundle produces are exactly the
images of its appendix-routed articles. -/
theorem composeSelected_snd (oracle : String → List Article → Summary) (b : Bundle) :
    (composeSelected oracle b).2 = (appendixSourcesSelected oracle b).map mkAppendixItem := by
  by_cases h2 : 2 ≤ b.recent_sorted.length
  · by_cases hg : insufficientIn (oracle b.topic (b.recent_sorted.take 2)) = true
    · simp [composeSelected, appendixSourcesSelected, h2, hg]
    · simp [composeSelected, appendixSourcesSelected, h2, hg]
  · by_cases h1 : b.recent_sorted.length = 1
    · by_cases hg : insufficientIn (oracle b.topic (b.recent_sorted.take 1)) = true
      · simp [composeSelected, appendixSourcesSelected, h2, h1, hg]
      · simp [composeSelected, appendixSourcesSelected, h2, h1, hg]
    · simp [composeSelected, appendixSourcesSelected, h2, h1, APPEND_STALE]

/-- The evidence of the sections a selected bundle emits is exactly its
evidence-routed article list. -/
theorem composeSelected_fst_evidence (oracle : String → List Article → Summary) (b : Bundle) :
    ((composeSelected oracle b).1.map (fun s => s.evidence)).flatten
      = sectionEvidenceSelected oracle b := by
  by_cases h2 : 2 ≤ b.recent_sorted.length
  · by_cases hg : insufficientIn (oracle b.topic (b.recent_sorted.take 2)) = true
    · simp [composeSelected, sectionEvidenceSelected, h2, hg]
    · simp [composeSelected, sectionEvidenceSelected, h2, hg]
  · by_cases h1 : b.recent_sorted.length = 1
    · by_cases hg : insufficientIn (oracle b.topic (b.recent_sorted.take 1)) = true
      · simp [composeSelected, sectionEvidenceSelected, h2, h1, hg]
      · simp [composeSelected, sectionEvidenceSelected, h2, h1, hg]
    · simp [composeSelected, sectionEvidenceSelected, h2, h1]

/-- The overflow entries are the images of the overflow-routed articles. -/
theorem collectOverflow_eq (b : Bundle) :
    collectOverflow b = (appendixSourcesOverflow b).map mkAppendixItem := rfl

/-- A selected bundle never routes articles both to a section and to the
appendix: one of the two lists is empty. -/
theorem sectionEvidence_or_appendix_empty (oracle : String → List Article → Summary)
    (b : Bundle) :
    sectionEvidenceSelected oracle b = [] ∨ appendixSourcesSelected oracle b = [] := by
  unfold sectionEvidenceSelected appendixSourcesSelected
  split
  · split
    · exact Or.inl rfl
    · exact Or.inr rfl
  · split
    · split
      · exact Or.inl rfl
      · exact Or.inr rfl
    · exact Or.inl rfl

/-- Evidence-routed articles come from the recent bucket. -/
theorem sectionEvidenceSelected_subset (oracle : String → List Article → Summary)
    (b : Bundle) :
    sectionEvidenceSelected oracle b ⊆ b.recent_sorted := by
  unfold sectionEvidenceSelected
  split
  · split
    · exact List.nil_subset _
    · exact List.take_subset 2 _
  · split
    · split
      · exact List.nil_subset _
      · exact List.take_subset 1 _
    · exact List.nil_subset _

/-- Appendix-routed articles of a selected bundle come from its buckets. -/
theorem appendixSourcesSelected_subset (oracle : String → List Article → Summary)
    (b : Bundle) :
    appendixSourcesSelected oracle b ⊆ artsOf b := by
  unfold appendixSourcesSelected artsOf
  split
  · split
    · exact fun a ha => List.mem_append_left _ (List.take_subset 2 _ ha)
    · exact List.nil_subset _
  · split
    · split
      · exact fun a ha => List.mem_append_left _ (List.take_subset 1 _ ha)
      · exact List.nil_subset _
    · split
      · exact fun a ha => List.mem_append_right _ (List.take_subset 3 _ ha)
      · exact List.nil_subset _

/-- Appendix-routed articles of an overflow bundle come from its buckets. -/
theorem appendixSourcesOverflow_subset (b : Bundle) :
    appendixSourcesOverflow b ⊆ artsOf b := by
  unfold appendixSourcesOverflow artsOf
  intro a ha
  rcases List.mem_append.mp ha with h | h
  · exact List.mem_append_left _ (List.take_subset 2 _ h)
  · split at h
    · exact List.mem_append_right _ (List.take_subset 2 _ h)
    · cases h

/-- When the bundle has two or more recent articles, its evidence routing
stays within the top two. -/
theorem sectionEvidenceSelected_take2 (oracle : String → List Article → Summary)
    (b : Bundle) (h : 2 ≤ b.recent_sorted.length) :
    sectionEvidenceSelected oracle b ⊆ b.recent_sorted.take 2 := by
  unfold sectionEvidenceSelected
  rw [if_pos h]
  split
  · exact List.nil_subset _
  · exact fun a ha => ha

/-- When the bundle has two or more recent articles, its appendix routing
stays within the top two. -/
theorem appendixSourcesSelected_take2 (oracle : String → List Article → Summary)
    (b : Bundle) (h : 2 ≤ b.recent_sorted.length) :
    appendixSourcesSelected oracle b ⊆ b.recent_sorted.take 2 := by
  unfold appendixSourcesSelected
  rw [if_pos h]
  split
  · exact fun a ha => ha
  · exact List.nil_subset _

/-! ### Run-level glue and bookkeeping -/

/-- Accumulated appendix entries of the selected loop are the images of
the accumulated appendix-routed articles. -/
theorem appendix_flatten_selected (oracle : String → List Article → Summary)
    (L : List Bundle) :
    (L.map (fun b => (composeSelected oracle b).2)).flatten
      = ((L.map (appendixSourcesSelected oracle)).flatten).map mkAppendixItem := by
  induction L with
  | nil => rfl
  | cons b T ih =>
    simp only [List.map_cons, List.flatten_cons]
    rw [composeSelected_snd, ih, List.map_append]

/-- Accumulated appendix entries of the overflow loop are the images of
the accumulated overflow-routed articles. -/
theorem appendix_flatten_overflow (L : List Bundle) :
    (L.map collectOverflow).flatten
      = ((L.map appendixSourcesOverflow).flatten).map mkAppendixItem := by
  induction L with
  | nil => rfl
  | cons b T ih =>
    simp only [List.map_cons, List.flatten_cons, List.map_append, ih, collectOverflow_eq]

/-- Accumulated section evidence of the selected loop equals the
accumulated evidence-routed articles. -/
theorem evidence_flatten_selected (oracle : String → List Article → Summary)
    (L : List Bundle) :
    (((L.map (fun b => (composeSelected oracle b).1)).flatten).map (fun s => s.evidence)).flatten
      = (L.map (sectionEvidenceSelected oracle)).flatten := by
  induction L with
  | nil => rfl
  | cons b T ih =>
    simp only [List.map_cons, List.flatten_cons, List.map_append, List.flatten_append, ih,
      composeSelected_fst_evidence]

/-- The appendix of a run is the image of its appendix-routed articles. -/
theorem runPipeline_appendix_eq (oracle : String → List Article → Summary)
    (inp : List (String × Except FetchError Buckets)) :
    (runPipeline oracle inp).appendix
      = (runAppendixSources oracle inp).map mkAppendixItem := by
  simp only [runPipeline, runAppendixSources, appendix_flatten_selected,
    appendix_flatten_overflow, List.map_append]

/-- The section evidence of a run is its accumulated evidence-routed
articles over the selected bundles. -/
theorem runPipeline_evidence_eq (oracle : String → List Article → Summary)
    (inp : List (String × Except FetchError Buckets)) :
    evidenceArticles (runPipeline oracle inp)
      = ((selectBundles MAX_TOP_SECTIONS (buildBundles inp)).1.map
          (sectionEvidenceSelected oracle)).flatten := by
  simp only [evidenceArticles, runPipeline, evidence_flatten_selected]

/-- The bundle articles, over a whole run, permute to the fetched
articles. -/
theorem buildBundles_arts_perm (inp : List (String × Except FetchError Buckets)) :
    (((buildBundles inp).map artsOf).flatten).Perm (allFetchedArticles inp) := by
  induction inp with
  | nil => exact List.Perm.refl _
  | cons p T ih =>
    simp only [buildBundles, allFetchedArticles, List.map_cons, List.flatten_cons] at *
    refine List.Perm.append ?_ ih
    simp only [mkBundle, artsOf]
    exact (sortDescBy_perm _ _).append (List.Perm.refl _)

/-- The ranked bundle articles permute to the fetched articles. -/
theorem sorted_arts_perm (inp : List (String × Except FetchError Buckets)) :
    (((sortDescBy (fun b => b.topic_score) (buildBundles inp)).map artsOf).flatten).Perm
      (allFetchedArticles inp) := by
  refine List.Perm.trans ?_ (buildBundles_arts_perm inp)
  exact ((sortDescBy_perm (fun b => b.topic_score) (buildBundles inp)).map artsOf).flatten

/-- When the fetched articles of a run are pairwise distinct, the ranked
bundles have duplicate-free article lists that are pairwise disjoint. -/
theorem sorted_arts_nodup (inp : List (String × Except FetchError Buckets))
    (hnd : (allFetchedArticles inp).Nodup) :
    (∀ b ∈ sortDescBy (fun b => b.topic_score) (buildBundles inp), (artsOf b).Nodup)
      ∧ (sortDescBy (fun b => b.topic_score) (buildBundles inp)).Pairwise
          (fun b c => (artsOf b).Disjoint (artsOf c)) := by
  have h : (((sortDescBy (fun b => b.topic_score) (buildBundles inp)).map artsOf).flatten).Nodup :=
    (sorted_arts_perm inp).symm.nodup hnd
  rcases List.nodup_flatten.mp h with ⟨h1, h2⟩
  constructor
  · intro b hb
    exact h1 (artsOf b) (List.mem_map_of_mem artsOf hb)
  · exact (List.pairwise_map).mp h2

/-- Flattened images over two lists are disjoint when the generators are
pointwise disjoint. -/
theorem disjoint_flatten_cross {α β : Type} (f g : β → List α) (L M : List β)
    (h : ∀ b ∈ L, ∀ c ∈ M, (f b).Disjoint (g c)) :
    ((L.map f).flatten).Disjoint ((M.map g).flatten) := by
  intro a haL haM
  rw [List.mem_flatten] at haL haM
  obtain ⟨lb, hlb, halb⟩ := haL
  obtain ⟨lc, hlc, halc⟩ := haM
  rw [List.mem_map] at hlb hlc
  obtain ⟨b, hb, rfl⟩ := hlb
  obtain ⟨c, hc, rfl⟩ := hlc
  exact h b hb c hc halb halc

/-- Flattened images over one list are disjoint when cross pairs are
disjoint and no element generates into both. -/
theorem disjoint_flatten_same {α β : Type} (f g arts : β → List α) (L : List β)
    (hf : ∀ b, f b ⊆ arts b) (hg : ∀ b, g b ⊆ arts b)
    (hpair : L.Pairwise (fun b c => (arts b).Disjoint (arts c)))
    (hsame : ∀ b ∈ L, f b = [] ∨ g b = []) :
    ((L.map f).flatten).Disjoint ((L.map g).flatten) := by
  induction L with
  | nil => intro a ha; cases ha
  | cons b T ih =>
    rcases List.pairwise_cons.mp hpair with ⟨hb, hT⟩
    intro a ha1 ha2
    simp only [List.map_cons, List.flatten_cons, List.mem_append] at ha1 ha2
    rcases ha1 with ha1 | ha1
    · rcases ha2 with ha2 | ha2
      · rcases hsame b (List.mem_cons_self b T) with he | he
        · rw [he] at ha1; cases ha1
        · rw [he] at ha2; cases ha2
      · rw [List.mem_flatten] at ha2
        obtain ⟨lc, hlc, halc⟩ := ha2
        rw [List.mem_map] at hlc
        obtain ⟨c, hc, rfl⟩ := hlc
        exact hb c hc (hf b ha1) (hg c halc)
    · rcases ha2 with ha2 | ha2
      · rw [List.mem_flatten] at ha1
        obtain ⟨lc, hlc, halc⟩ := ha1
        rw [List.mem_map] at hlc
        obtain ⟨c, hc, rfl⟩ := hlc
        exact hb c hc (hg b ha2) (hf c halc)
      · exact ih hT (fun c hc => hsame c (List.mem_cons_of_mem b hc)) ha1 ha2

/-! ### Claim theorems -/

/-- C1, counterexample: a transport failure raised by the
chat-completions request itself is NOT absorbed by `_summarize_points`;
the exception propagates to the caller instead of being converted into
the all-"Insufficient facts" sentinel, because the `create` call stands
outside the `try` block. -/
theorem extractor_raises_on_transport_failure :
    summarizePoints (Except.error CallError.transport) = Except.error CallError.transport
    ∧ summarizePoints (Except.error CallError.transport) ≠ Except.ok sentinelSummary :=
  ⟨rfl, fun h => Except.noConfusion h⟩

/-- C1, amended: exceptions raised by the chat-completions request
itself propagate to the caller of `_summarize_points`; only a response
body that fails to parse or validate inside the `try` block is absorbed
into the sentinel Summary. -/
theorem extractor_error_propagation :
    (∀ e : CallError, summarizePoints (Except.error e) = Except.error e)
    ∧ summarizePoints (Except.ok none) = Except.ok sentinelSummary :=
  ⟨fun _ => rfl, rfl⟩

/-- C4, confirmed: over parsed four-field responses the validity gate of
`_summarize_points` classifies the response invalid exactly when at
least 3 of the 4 fields are empty/falsy (a falsy response object makes
all four gets falsy and is subsumed), returning the sentinel in that
case and the parsed response unchanged otherwise; the equivalence is
stated for every Summary, hence for all 16 emptiness combinations. -/
theorem extractor_gate_characterization (d : Summary) :
    (summaryBad d = true ↔ 3 ≤ emptyFieldCount d)
    ∧ summarizePoints (Except.ok (some d))
        = Except.ok (if 3 ≤ emptyFieldCount d then sentinelSummary else d) := by
  constructor
  · simp [summaryBad]
  · simp only [summarizePoints, summaryBad]
    by_cases h : 3 ≤ emptyFieldCount d
    · simp [h]
    · simp [h]

/-- C8, counterexample: the Extractor returns a parsed response with two
empty fields unchanged, so a returned Summary need not have every field
non-empty. -/
theorem extractor_returns_empty_fields :
    summarizePoints (Except.ok (some summaryTwoEmpty)) = Except.ok summaryTwoEmpty
    ∧ summaryTwoEmpty.who = "" ∧ summaryTwoEmpty.watch = "" :=
  ⟨rfl, rfl, rfl⟩

/-- C8, amended: every Summary the Extractor returns has at most two
empty fields (at least two of the four fields are non-empty); single
fields may still be empty. -/
theorem extractor_at_most_two_empty_fields (r : Except CallError (Option Summary)) (d : Summary)
    (h : summarizePoints r = Except.ok d) : emptyFieldCount d ≤ 2 := by
  cases r with
  | error e => simp [summarizePoints] at h
  | ok o =>
    cases o with
    | none =>
      simp only [summarizePoints, Except.ok.injEq] at h
      subst h
      decide
    | some data =>
      simp only [summarizePoints, Except.ok.injEq] at h
      by_cases hb : summaryBad data = true
      · rw [if_pos hb] at h
        subst h
        decide
      · rw [if_neg hb] at h
        subst h
        simp only [summaryBad, decide_eq_true_eq] at hb
        omega

/-- C8, witness for the amended theorem at a concrete response. -/
theorem extractor_at_most_two_empty_fields_witness :
    summarizePoints (Except.ok (some summaryTwoEmpty)) = Except.ok summaryTwoEmpty
    ∧ emptyFieldCount summaryTwoEmpty ≤ 2 :=
  ⟨rfl, extractor_at_most_two_empty_fields (Except.ok (some summaryTwoEmpty)) summaryTwoEmpty rfl⟩

/-- C2, confirmed against the spec-modelled fetch: a topic whose fetch
fails yields the empty-buckets bundle with score 0 at its position, the
bundle list still covers every topic (the run is not aborted), and such
a bundle contributes no section and no appendix entry on either the
selected or the overflow path. -/
theorem fetch_failure_degrades (inp : List (String × Except FetchError Buckets)) (i : Nat)
    (t : String) (e : FetchError) (h : inp[i]? = some (t, Except.error e)) :
    (buildBundles inp).length = inp.length
    ∧ (buildBundles inp)[i]?
        = some { topic := t, recent_sorted := [], stale := [], topic_score := 0 }
    ∧ (∀ oracle : String → List Article → Summary,
        composeSelected oracle { topic := t, recent_sorted := [], stale := [], topic_score := 0 }
          = ([], []))
    ∧ collectOverflow { topic := t, recent_sorted := [], stale := [], topic_score := 0 } = [] := by
  refine ⟨by simp [buildBundles], ?_, fun oracle => rfl, rfl⟩
  rw [buildBundles, List.getElem?_map, h]
  rfl

/-- C2, witness at a concrete failing fetch. -/
theorem fetch_failure_degrades_witness :
    inpFail[0]? = some ("Oil Prices", Except.error FetchError.failure)
    ∧ (buildBundles inpFail).length = inpFail.length
    ∧ (buildBundles inpFail)[0]?
        = some { topic := "Oil Prices", recent_sorted := [], stale := [], topic_score := 0 }
    ∧ composeSelected oracleNone
        { topic := "Oil Prices", recent_sorted := [], stale := [], topic_score := 0 } = ([], [])
    ∧ collectOverflow
        { topic := "Oil Prices", recent_sorted := [], stale := [], topic_score := 0 } = [] :=
  ⟨rfl, (fetch_failure_degrades inpFail 0 "Oil Prices" FetchError.failure rfl).1,
   (fetch_failure_degrades inpFail 0 "Oil Prices" FetchError.failure rfl).2.1,
   (fetch_failure_degrades inpFail 0 "Oil Prices" FetchError.failure rfl).2.2.1 oracleNone,
   (fetch_failure_degrades inpFail 0 "Oil Prices" FetchError.failure rfl).2.2.2⟩

/-- C5, confirmed: the Topic Selector is the stable descending sort by
`topic_score` split at `K`: selected is the first `K` of the sorted
sequence and overflow the remainder, their lengths sum to the input
length, together they reassemble the sorted sequence which permutes the
input (no bundle dropped), the sorted sequence is non-increasing, and
ties keep their input (configuration) order, for every `K ≥ 0`. -/
theorem selector_partition (bundles : List Bundle) (K : Nat) :
    selectBundles K bundles
        = ((sortDescBy (fun b => b.topic_score) bundles).take K,
          (sortDescBy (fun b => b.topic_score) bundles).drop K)
    ∧ (selectBundles K bundles).1.length + (selectBundles K bundles).2.length = bundles.length
    ∧ (selectBundles K bundles).1 ++ (selectBundles K bundles).2
        = sortDescBy (fun b => b.topic_score) bundles
    ∧ (sortDescBy (fun b => b.topic_score) bundles).Perm bundles
    ∧ (sortDescBy (fun b => b.topic_score) bundles).Pairwise
        (fun x y => y.topic_score ≤ x.topic_score)
    ∧ (∀ v : Int, (sortDescBy (fun b => b.topic_score) bundles).filter
        (fun b => b.topic_score == v) = bundles.filter (fun b => b.topic_score == v)) := by
  refine ⟨rfl, ?_, ?_, sortDescBy_perm _ _, sortDescBy_pairwise _ _,
    fun v => sortDescBy_filter _ v _⟩
  · simp only [selectBundles]
    rw [← List.length_append, List.take_append_drop]
    exact (sortDescBy_perm (fun b => b.topic_score) bundles).length_eq
  · simp only [selectBundles]
    exact List.take_append_drop K _

/-- C6, counterexample: with two distinct articles of equal score the
stable sort of the Topic Bundler preserves the input order, so
reordering the input recent list changes `recent_sorted`. -/
theorem bundler_not_permutation_invariant :
    ([artB, artA] : List Article).Perm [artA, artB]
    ∧ (mkBundle "Tie Topic" { recent := [artB, artA], stale := [] }).recent_sorted
        ≠ (mkBundle "Tie Topic" { recent := [artA, artB], stale := [] }).recent_sorted := by
  constructor
  · exact List.Perm.swap artA artB []
  · decide

/-- C6, amended: `recent_sorted` is non-increasing by score for every
bundle, and when the scores of the input recent list are pairwise
distinct, every permutation of that input yields the same
`recent_sorted`. -/
theorem bundler_sorted_perm_invariant (t : String) (bk : Buckets) :
    (mkBundle t bk).recent_sorted.Pairwise (fun x y => y.score ≤ x.score)
    ∧ ∀ rec2 : List Article, bk.recent.Perm rec2 →
        bk.recent.Pairwise (fun x y => x.score ≠ y.score) →
        (mkBundle t { recent := rec2, stale := bk.stale }).recent_sorted
          = (mkBundle t bk).recent_sorted := by
  constructor
  · exact sortDescBy_pairwise _ _
  · intro rec2 hp hne
    show sortDescBy (fun a => a.score) rec2 = sortDescBy (fun a => a.score) bk.recent
    exact (sortDescBy_eq_of_perm (fun a => a.score) hp hne).symm

/-- C6, witness for the amended theorem at concrete distinct-score
articles. -/
theorem bundler_sorted_perm_invariant_witness :
    ([artTop, artSecond] : List Article).Perm [artSecond, artTop]
    ∧ ([artTop, artSecond] : List Article).Pairwise (fun x y => x.score ≠ y.score)
    ∧ (mkBundle "Fed Rate" { recent := [artSecond, artTop], stale := [] }).recent_sorted
        = (mkBundle "Fed Rate" { recent := [artTop, artSecond], stale := [] }).recent_sorted :=
  ⟨List.Perm.swap artSecond artTop [], by decide,
   (bundler_sorted_perm_invariant "Fed Rate" { recent := [artTop, artSecond], stale := [] }).2
     [artSecond, artTop] (List.Perm.swap artSecond artTop []) (by decide)⟩

/-- Every appendix-routed article of a run was fetched in that run. -/
theorem runAppendixSources_subset (oracle : String → List Article → Summary)
    (inp : List (String × Except FetchError Buckets)) :
    runAppendixSources oracle inp ⊆ allFetchedArticles inp := by
  intro a ha
  have hmem : a ∈ ((sortDescBy (fun b => b.topic_score) (buildBundles inp)).map artsOf).flatten := by
    simp only [runAppendixSources, selectBundles, List.mem_append] at ha
    rw [List.mem_flatten]
    rcases ha with ha | ha
    · rw [List.mem_flatten] at ha
      obtain ⟨l, hl, hal⟩ := ha
      rw [List.mem_map] at hl
      obtain ⟨b, hb, rfl⟩ := hl
      exact ⟨artsOf b, List.mem_map_of_mem artsOf (List.take_subset _ _ hb),
        appendixSourcesSelected_subset oracle b hal⟩
    · rw [List.mem_flatten] at ha
      obtain ⟨l, hl, hal⟩ := ha
      rw [List.mem_map] at hl
      obtain ⟨b, hb, rfl⟩ := hl
      exact ⟨artsOf b, List.mem_map_of_mem artsOf (List.drop_subset _ _ hb),
        appendixSourcesOverflow_subset b hal⟩
  exact (sorted_arts_perm inp).mem_iff.mp hmem

/-- C3, counterexample: the Section Composer's gate is the substring
test `"Insufficient" not in "".join(summary.values())`, not an equality
test against the sentinel: a returned Summary different from the
all-"Insufficient facts" sentinel but containing the word
`Insufficient` in a field produces no Deep Section and sends both top
articles to the appendix. -/
theorem composer_gate_not_sentinel_equality :
    oracleInsufficientWord "Fed Rate" (bundleFed.recent_sorted.take 2) ≠ sentinelSummary
    ∧ composeSelected oracleInsufficientWord bundleFed
        = ([], [mkAppendixItem artTop, mkAppendixItem artSecond]) := by
  constructor
  · decide
  · decide

/-- C3, amended: for every selected bundle with at least 2 recent
articles the composer calls the Extractor on the top 2 articles by score
and emits a Deep Section using both articles as evidence if and only if
the concatenated field values of the returned Summary do not contain the
substring `Insufficient`; otherwise it appends exactly those two
articles to the appendix and emits no Section for that bundle. -/
theorem composer_two_recent_behavior (oracle : String → List Article → Summary) (b : Bundle)
    (h : 2 ≤ b.recent_sorted.length) :
    (composeSelected oracle b
        = if insufficientIn (oracle b.topic (b.recent_sorted.take 2)) then
            ([], (b.recent_sorted.take 2).map mkAppendixItem)
          else
            ([{ header := b.topic ++ " (Deep)", evidence := b.recent_sorted.take 2,
                summary := oracle b.topic (b.recent_sorted.take 2) }], []))
    ∧ (b.recent_sorted.take 2).length = 2 := by
  constructor
  · simp only [composeSelected]
    rw [if_pos h]
  · rw [List.length_take]
    omega

/-- C3, witness for the amended theorem at a concrete bundle with a
grounded extraction. -/
theorem composer_two_recent_behavior_witness :
    2 ≤ bundleFed.recent_sorted.length
    ∧ ((composeSelected oracleFacts bundleFed
        = if insufficientIn (oracleFacts bundleFed.topic (bundleFed.recent_sorted.take 2)) then
            ([], (bundleFed.recent_sorted.take 2).map mkAppendixItem)
          else
            ([{ header := bundleFed.topic ++ " (Deep)",
                evidence := bundleFed.recent_sorted.take 2,
                summary := oracleFacts bundleFed.topic (bundleFed.recent_sorted.take 2) }], []))
      ∧ (bundleFed.recent_sorted.take 2).length = 2) :=
  ⟨by decide, composer_two_recent_behavior oracleFacts bundleFed (by decide)⟩

/-- C9, counterexample: the URL date pattern of `_date_from_url` only
matches years beginning with `20`, so an article with no published
timestamp and a `/1999-05-06/` URL segment gets a null date, while the
claim's literal `YYYY` pattern would extract `1999-05-06`. -/
theorem appendix_date_pre2000_not_extracted :
    (runPipeline oracleNone inpOld).appendix
        = [{ title := "Old story", url := "https://ex.com/1999-05-06/old",
             date := none, label := "wire" }]
    ∧ dateFromUrlClaim "https://ex.com/1999-05-06/old" = some "1999-05-06"
    ∧ dateFromUrl "https://ex.com/1999-05-06/old" = none := by
  refine ⟨by decide, by decide, by decide⟩

/-- C9, amended: every appendix entry of a run is derived from a fetched
article; its date is the date portion of the article's published
timestamp when present, otherwise the `YYYY-MM-DD` string from the first
match of the source regex anywhere in the URL string — a slash-delimited
date segment whose year begins with `20` — otherwise null; and this same
derivation is applied at every appendix-construction site. -/
theorem appendix_date_derivation (oracle : String → List Article → Summary)
    (inp : List (String × Except FetchError Buckets)) (it : AppendixItem)
    (h : it ∈ (runPipeline oracle inp).appendix) :
    ∃ a : Article, a ∈ allFetchedArticles inp ∧ it = mkAppendixItem a
      ∧ it.date = (match a.published_at with
                  | some d => some d
                  | none => dateFromUrl a.url) := by
  rw [runPipeline_appendix_eq, List.mem_map] at h
  obtain ⟨a, ha, rfl⟩ := h
  exact ⟨a, runAppendixSources_subset oracle inp ha, rfl, rfl⟩

/-- C9, witness for the amended theorem at a concrete run. -/
theorem appendix_date_derivation_witness :
    mkAppendixItem artOld ∈ (runPipeline oracleNone inpOld).appendix
    ∧ ∃ a : Article, a ∈ allFetchedArticles inpOld
        ∧ mkAppendixItem artOld = mkAppendixItem a
        ∧ (mkAppendixItem artOld).date = (match a.published_at with
            | some d => some d
            | none => dateFromUrl a.url) :=
  ⟨by decide, appendix_date_derivation oracleNone inpOld (mkAppendixItem artOld) (by decide)⟩

/-- C7, confirmed: within a single run whose fetched articles are
pairwise distinct (value equality modelling object identity of fetched
articles), the appendix entries are the images of the appendix-routed
articles and no article used as evidence in any Deep/Short section is
also routed to the appendix. -/
theorem article_single_destination (oracle : String → List Article → Summary)
    (inp : List (String × Except FetchError Buckets))
    (hnd : (allFetchedArticles inp).Nodup) :
    (runPipeline oracle inp).appendix = (runAppendixSources oracle inp).map mkAppendixItem
    ∧ ∀ a : Article, a ∈ evidenceArticles (runPipeline oracle inp) →
        a ∉ runAppendixSources oracle inp := by
  refine ⟨runPipeline_appendix_eq oracle inp, ?_⟩
  intro a hev hap
  obtain ⟨hnodupEach, hpair⟩ := sorted_arts_nodup inp hnd
  have hpair2 : ((sortDescBy (fun b => b.topic_score) (buildBundles inp)).take MAX_TOP_SECTIONS
      ++ (sortDescBy (fun b => b.topic_score) (buildBundles inp)).drop MAX_TOP_SECTIONS).Pairwise
      (fun b c => (artsOf b).Disjoint (artsOf c)) := by
    rw [List.take_append_drop]
    exact hpair
  rcases List.pairwise_append.mp hpair2 with ⟨psel, povf, pcross⟩
  rw [runPipeline_evidence_eq] at hev
  simp only [selectBundles] at hev
  simp only [runAppendixSources, selectBundles, List.mem_append] at hap
  rcases hap with hap | hap
  · exact disjoint_flatten_same (sectionEvidenceSelected oracle)
      (appendixSourcesSelected oracle) artsOf
      ((sortDescBy (fun b => b.topic_score) (buildBundles inp)).take MAX_TOP_SECTIONS)
      (fun b x hx => List.mem_append_left _ (sectionEvidenceSelected_subset oracle b hx))
      (fun b => appendixSourcesSelected_subset oracle b)
      psel
      (fun b _ => sectionEvidence_or_appendix_empty oracle b)
      hev hap
  · exact disjoint_flatten_cross (sectionEvidenceSelected oracle) appendixSourcesOverflow
      ((sortDescBy (fun b => b.topic_score) (buildBundles inp)).take MAX_TOP_SECTIONS)
      ((sortDescBy (fun b => b.topic_score) (buildBundles inp)).drop MAX_TOP_SECTIONS)
      (fun b hb c hc x hx1 hx2 =>
        pcross b hb c hc (List.mem_append_left _ (sectionEvidenceSelected_subset oracle b hx1))
          (appendixSourcesOverflow_subset c hx2))
      hev hap

/-- C7, witness at a concrete run: the top article is section evidence
and not appendix-routed. -/
theorem article_single_destination_witness :
    (allFetchedArticles inpPair).Nodup
    ∧ artTop ∈ evidenceArticles (runPipeline oracleFacts inpPair)
    ∧ artTop ∉ runAppendixSources oracleFacts inpPair :=
  ⟨by decide, by decide,
   (article_single_destination oracleFacts inpPair (by decide)).2 artTop (by decide)⟩

/-- C10, confirmed: in a run whose fetched articles are pairwise
distinct, every recent article of a selected bundle ranked below the top
two appears neither as section evidence nor among the appendix-routed
articles; it contributes nothing to the output. -/
theorem below_top_two_contribute_nothing (oracle : String → List Article → Summary)
    (inp : List (String × Except FetchError Buckets)) (b : Bundle) (a : Article)
    (hnd : (allFetchedArticles inp).Nodup)
    (hb : b ∈ (selectBundles MAX_TOP_SECTIONS (buildBundles inp)).1)
    (hlen : 2 < b.recent_sorted.length)
    (ha : a ∈ b.recent_sorted.drop 2) :
    a ∉ evidenceArticles (runPipeline oracle inp) ∧ a ∉ runAppendixSources oracle inp := by
  obtain ⟨hnodupEach, hpair⟩ := sorted_arts_nodup inp hnd
  simp only [selectBundles] at hb
  have hbs : b ∈ sortDescBy (fun b => b.topic_score) (buildBundles inp) :=
    List.take_subset _ _ hb
  have hnb : (artsOf b).Nodup := hnodupEach b hbs
  have harec : a ∈ b.recent_sorted := List.drop_subset _ _ ha
  have haarts : a ∈ artsOf b := List.mem_append_left _ harec
  rcases List.nodup_append.mp hnb with ⟨hnr, hnstale, hdisj_rs⟩
  have hnr2 : (b.recent_sorted.take 2 ++ b.recent_sorted.drop 2).Nodup := by
    rw [List.take_append_drop]
    exact hnr
  rcases List.nodup_append.mp hnr2 with ⟨_, _, hdisj_td⟩
  have hnotake : a ∉ b.recent_sorted.take 2 := fun hmem => hdisj_td hmem ha
  have hpair2 : ((sortDescBy (fun b => b.topic_score) (buildBundles inp)).take MAX_TOP_SECTIONS
      ++ (sortDescBy (fun b => b.topic_score) (buildBundles inp)).drop MAX_TOP_SECTIONS).Pairwise
      (fun b c => (artsOf b).Disjoint (artsOf c)) := by
    rw [List.take_append_drop]
    exact hpair
  rcases List.pairwise_append.mp hpair2 with ⟨psel, povf, pcross⟩
  have hsymm : Symmetric (fun b c : Bundle => (artsOf b).Disjoint (artsOf c)) :=
    fun x y h => h.symm
  constructor
  · intro hev
    rw [runPipeline_evidence_eq] at hev
    simp only [selectBundles] at hev
    rw [List.mem_flatten] at hev
    obtain ⟨l, hl, hal⟩ := hev
    rw [List.mem_map] at hl
    obtain ⟨c, hc, rfl⟩ := hl
    by_cases hbc : c = b
    · subst hbc
      exact hnotake (sectionEvidenceSelected_take2 oracle c (le_of_lt hlen) hal)
    · have hcs : c ∈ sortDescBy (fun b => b.topic_score) (buildBundles inp) :=
        List.take_subset _ _ hc
      have hdisj := hpair.forall hsymm hcs hbs hbc
      exact hdisj (List.mem_append_left _ (sectionEvidenceSelected_subset oracle c hal)) haarts
  · intro hap
    simp only [runAppendixSources, selectBundles, List.mem_append] at hap
    rcases hap with hap | hap
    · rw [List.mem_flatten] at hap
      obtain ⟨l, hl, hal⟩ := hap
      rw [List.mem_map] at hl
      obtain ⟨c, hc, rfl⟩ := hl
      by_cases hbc : c = b
      · subst hbc
        exact hnotake (appendixSourcesSelected_take2 oracle c (le_of_lt hlen) hal)
      · have hcs : c ∈ sortDescBy (fun b => b.topic_score) (buildBundles inp) :=
          List.take_subset _ _ hc
        have hdisj := hpair.forall hsymm hcs hbs hbc
        exact hdisj (appendixSourcesSelected_subset oracle c hal) haarts
    · rw [List.mem_flatten] at hap
      obtain ⟨l, hl, hal⟩ := hap
      rw [List.mem_map] at hl
      obtain ⟨c, hc, rfl⟩ := hl
      exact pcross b hb c hc haarts (appendixSourcesOverflow_subset c hal)

/-- C10, witness at a concrete run with three recent articles. -/
theorem below_top_two_contribute_nothing_witness :
    (allFetchedArticles inpTriple).Nodup
    ∧ (mkBundle "Fed Rate" { recent := [artTop, artSecond, artThird], stale := [] })
        ∈ (selectBundles MAX_TOP_SECTIONS (buildBundles inpTriple)).1
    ∧ (artThird ∉ evidenceArticles (runPipeline oracleFacts inpTriple)
        ∧ artThird ∉ runAppendixSources oracleFacts inpTriple) :=
  ⟨by decide, by decide,
   below_top_two_contribute_nothing oracleFacts inpTriple
     (mkBundle "Fed Rate" { recent := [artTop, artSecond, artThird], stale := [] }) artThird
     (by decide) (by decide) (by decide) (by decide)⟩
